import Mathlib

/-!
Shallow embedding of `src/backend/server.py` (FastAPI e-commerce backend).

Modelling conventions:
* The three MongoDB collections (`products`, `cart`, `chat_history`) are lists
  inside a `Store` record; `insert_one` appends, `find_one` is `List.find?`,
  `update_one` / `delete_one` touch at most the first matching document.
* `uuid.uuid4()` is modelled by a `nextId` counter in the store (fresh ids),
  `datetime.now` by a `now` field.
* The LLM (`chat.send_message`) is an external black box: every handler that
  calls it takes the outcome of that call as an `Except String String`
  parameter (`Except.error msg` models a raised provider exception).
* Each route's `try/except Exception as e: raise HTTPException(500, str(e))`
  is modelled by `catchAll500`.  Crucially, Starlette's `HTTPException`
  derives from `Exception`, so an `HTTPException(404)` raised inside the
  `try` block of `add_to_cart` is caught by the blanket handler and
  re-raised as a 500 whose detail is `str(e) = "404: <detail>"`.
  `get_product` and `remove_from_cart` have no such wrapper in the source.
* Python floats (prices) are carried as integer cents; no claim computes
  with prices.
-/

namespace ECommerce

/-- A raised Python exception: either a Starlette `HTTPException` (status,
detail) or a generic exception carrying its message. -/
inductive PyExc where
  | http (status : Nat) (detail : String)
  | generic (msg : String)
deriving DecidableEq

/-- Python `str(e)`: Starlette renders `HTTPException` as
`"<status>: <detail>"`; a generic exception renders as its message. -/
def strExc : PyExc → String
  | PyExc.http st d => toString st ++ ": " ++ d
  | PyExc.generic m => m

/-- The blanket handler `except Exception as e: raise HTTPException(500, str(e))`
present in most routes: any exception, including an inner `HTTPException`,
becomes a 500 with detail `str(e)`. -/
def catchAll500 {α : Type} : Except PyExc α → Except PyExc α
  | Except.error e => Except.error (PyExc.http 500 (strExc e))
  | Except.ok a => Except.ok a

/-- Decidable equality for `Except`, to evaluate handler results at concrete
inputs. -/
instance {α β : Type} [DecidableEq α] [DecidableEq β] : DecidableEq (Except α β) :=
  fun a b =>
    match a, b with
    | Except.ok x, Except.ok y =>
      if h : x = y then isTrue (by rw [h]) else isFalse (by intro hh; cases hh; exact h rfl)
    | Except.error x, Except.error y =>
      if h : x = y then isTrue (by rw [h]) else isFalse (by intro hh; cases hh; exact h rfl)
    | Except.ok _, Except.error _ => isFalse (by intro hh; cases hh)
    | Except.error _, Except.ok _ => isFalse (by intro hh; cases hh)

/-- The `Product` pydantic model. -/
structure Product where
  id : Nat
  name : String
  description : String
  priceCents : Int
  category : String
  image_url : String
  tags : List String
  in_stock : Bool
  created_at : Nat
deriving DecidableEq

/-- The `CartItem` pydantic model. -/
structure CartItem where
  id : Nat
  product_id : Nat
  user_id : String
  quantity : Int
  added_at : Nat
deriving DecidableEq

/-- The `ChatMessage` pydantic model. -/
structure ChatMessage where
  id : Nat
  user_id : String
  message : String
  response : String
  timestamp : Nat
deriving DecidableEq

/-- The mutable world: the three collections, plus the id supply and clock. -/
structure Store where
  products : List Product
  cart : List CartItem
  chat_history : List ChatMessage
  nextId : Nat
  now : Nat
deriving DecidableEq

/-- `db.products.find_one({"id": pid})`. -/
def findProduct (ps : List Product) (pid : Nat) : Option Product :=
  ps.find? (fun p => p.id == pid)

/-- The cart query `{"product_id": pid, "user_id": uid}` as a predicate. -/
def pairMatch (pid : Nat) (uid : String) (c : CartItem) : Bool :=
  c.product_id == pid && c.user_id == uid

/-- `db.cart.find_one({"product_id": pid, "user_id": uid})`. -/
def findCartPair (cs : List CartItem) (pid : Nat) (uid : String) : Option CartItem :=
  cs.find? (pairMatch pid uid)

/-- All cart documents matching `{"product_id": pid, "user_id": uid}`. -/
def pairEntries (cs : List CartItem) (pid : Nat) (uid : String) : List CartItem :=
  cs.filter (pairMatch pid uid)

/-- `db.cart.update_one({"id": iid}, {"$set": {"quantity": v}})`: sets the
quantity of the first document with that id, leaving everything else alone. -/
def updateOneQuantity : List CartItem → Nat → Int → List CartItem
  | [], _, _ => []
  | c :: rest, iid, v =>
    if c.id == iid then { c with quantity := v } :: rest
    else c :: updateOneQuantity rest iid v

/-- `db.cart.delete_one({"id": iid})`: removes the first document with that
id; also returns `deleted_count`. -/
def deleteOneCart : List CartItem → Nat → List CartItem × Nat
  | [], _ => ([], 0)
  | c :: rest, iid =>
    if c.id == iid then (rest, 1)
    else
      let r := deleteOneCart rest iid
      (c :: r.1, r.2)

/-- The ids of the cart documents. -/
def cartIds (cs : List CartItem) : List Nat := cs.map (fun c => c.id)

/-- The per-document effect of the `$set quantity` update: a document whose
id matches gets the new quantity, any other document is untouched. -/
def setQuantity (iid : Nat) (v : Int) (c : CartItem) : CartItem :=
  if c.id == iid then { c with quantity := v } else c

/-- Well-formedness of the id supply: cart ids are pairwise distinct (uuid4
collisions do not happen) and below the fresh-id counter. -/
def WFStore (s : Store) : Prop :=
  (cartIds s.cart).Nodup ∧ ∀ c ∈ s.cart, c.id < s.nextId

/-- Body of `POST /cart` (`add_to_cart`) before the blanket except: 404 when
the product id is unknown; otherwise upsert the (user, product) entry. -/
def addToCartInner (s : Store) (pid : Nat) (uid : String) (q : Int) :
    Except PyExc CartItem × Store :=
  match findProduct s.products pid with
  | none => (Except.error (PyExc.http 404 "Product not found"), s)
  | some _ =>
    match findCartPair s.cart pid uid with
    | some existing =>
      let nq := existing.quantity + q
      (Except.ok { existing with quantity := nq },
       { s with cart := updateOneQuantity s.cart existing.id nq })
    | none =>
      let item : CartItem :=
        { id := s.nextId, product_id := pid, user_id := uid,
          quantity := q, added_at := s.now }
      (Except.ok item, { s with cart := s.cart ++ [item], nextId := s.nextId + 1 })

/-- `POST /cart`: `addToCartInner` under the blanket except (which turns the
inner 404 into a 500, since `HTTPException` is an `Exception`). -/
def add_to_cart (s : Store) (pid : Nat) (uid : String) (q : Int) :
    Except PyExc CartItem × Store :=
  let r := addToCartInner s pid uid q
  (catchAll500 r.1, r.2)

/-- Successive `POST /cart` calls for the same (user, product) pair, one per
quantity in the list. -/
def addAll (pid : Nat) (uid : String) : Store → List Int → Store
  | s, [] => s
  | s, q :: qs => addAll pid uid (add_to_cart s pid uid q).2 qs

/-- `GET /products/{product_id}`: no try/except wrapper in the source, so the
404 reaches the caller unchanged. -/
def get_product (s : Store) (pid : Nat) : Except PyExc Product :=
  match findProduct s.products pid with
  | none => Except.error (PyExc.http 404 "Product not found")
  | some p => Except.ok p

/-- `DELETE /cart/{item_id}`: no try/except wrapper in the source; 404 when
`deleted_count == 0`. -/
def remove_from_cart (s : Store) (iid : Nat) : Except PyExc String × Store :=
  let r := deleteOneCart s.cart iid
  if r.2 == 0 then
    (Except.error (PyExc.http 404 "Cart item not found"), { s with cart := r.1 })
  else
    (Except.ok "Item removed from cart", { s with cart := r.1 })

/-- Python whitespace as stripped by `str.strip()` (the forms occurring in
LLM responses). -/
def isPySpace (c : Char) : Bool := c == ' ' || c == '\t' || c == '\n' || c == '\r'

/-- Python `str.lower()` (ASCII case folding, as `(?i)` also uses). -/
def pyLower (s : String) : String := String.mk (s.toList.map Char.toLower)

/-- Python `str.strip()`: drop leading and trailing whitespace. -/
def pyStrip (s : String) : String :=
  String.mk (((s.toList.dropWhile isPySpace).reverse.dropWhile isPySpace).reverse)

/-- Python `response.split(',')` on the character list: always yields at
least one (possibly empty) group. -/
def splitCommaChars : List Char → List (List Char)
  | [] => [[]]
  | c :: rest =>
    if c == ',' then [] :: splitCommaChars rest
    else
      match splitCommaChars rest with
      | [] => [[c]]
      | g :: gs => (c :: g) :: gs

/-- Python `response.split(',')` on strings. -/
def split_commas (resp : String) : List String :=
  (splitCommaChars resp.toList).map (fun g => String.mk g)

/-- `[keyword.strip() for keyword in response.split(',')]` — the parsing done
by `get_smart_search_results` on the raw AI response. -/
def keywordsOf (resp : String) : List String :=
  (split_commas resp).map (fun k => pyStrip k)

/-- `[cat.strip().lower() for cat in response.split(',')]` — the parsing done
by `get_product_recommendations` on the raw AI response. -/
def parseCategories (resp : String) : List String :=
  (split_commas resp).map (fun c => pyLower (pyStrip c))

/-- Case-insensitive substring test: the meaning of the anchor-free MongoDB
regex `(?i)pat` applied to `hay`. -/
def ciSubstr (pat hay : String) : Bool :=
  decide ((pyLower pat).toList <:+: (pyLower hay).toList)

/-- `search_terms = [search] + keywords` in `get_products`. -/
def searchTerms (search : String) (resp : String) : List String :=
  search :: keywordsOf resp

/-- The `$or` clause built by `get_products`: some term matches the name or
the description case-insensitively, or some lower-cased term is a tag. -/
def termMatches (terms : List String) (p : Product) : Bool :=
  terms.any (fun t => ciSubstr t p.name || ciSubstr t p.description
    || p.tags.contains (pyLower t))

/-- The exact-match category constraint of `get_products` (`if category:` is
Python truthiness, so an empty string imposes no constraint). -/
def categoryOk (category : Option String) (p : Product) : Bool :=
  match category with
  | some c => if c.isEmpty then true else p.category == c
  | none => true

/-- Body of `GET /products` before the blanket except.  `if search:` is
Python truthiness; when the search branch runs, the AI call outcome `ai`
either raises (propagating the exception) or yields the keyword response. -/
def getProductsInner (s : Store) (category : Option String) (search : Option String)
    (limit : Nat) (ai : Except String String) : Except PyExc (List Product) :=
  match search with
  | some q =>
    if q.isEmpty then
      Except.ok ((s.products.filter (fun p => categoryOk category p)).take limit)
    else
      match ai with
      | Except.error e => Except.error (PyExc.generic e)
      | Except.ok resp =>
        Except.ok ((s.products.filter
          (fun p => categoryOk category p && termMatches (searchTerms q resp) p)).take limit)
  | none => Except.ok ((s.products.filter (fun p => categoryOk category p)).take limit)

/-- `GET /products`: `getProductsInner` under the blanket except. -/
def get_products (s : Store) (category : Option String) (search : Option String)
    (limit : Nat) (ai : Except String String) : Except PyExc (List Product) :=
  catchAll500 (getProductsInner s category search limit ai)

/-- `db.products.find({"category": {"$regex": "(?i)cat"}}).limit(2)`: up to
two products whose category contains `cat` case-insensitively. -/
def categoryProducts (s : Store) (cat : String) : List Product :=
  (s.products.filter (fun p => ciSubstr cat p.category)).take 2

/-- The `for category in recommended_categories: recommended_products.extend(...)`
loop of `get_recommendations`. -/
def recLoop (s : Store) : List String → List Product
  | [] => []
  | c :: rest => categoryProducts s c ++ recLoop s rest

/-- The JSON object returned by `GET /products/recommendations/{user_id}`. -/
structure RecResult where
  recommendations : List Product
  recommended_categories : List String
deriving DecidableEq

/-- Body of `GET /products/recommendations/{user_id}` before the blanket
except.  The user's cart feeds only the AI prompt, which is absorbed into
the AI call outcome `ai`. -/
def getRecommendationsInner (s : Store) (ai : Except String String) :
    Except PyExc RecResult :=
  match ai with
  | Except.error e => Except.error (PyExc.generic e)
  | Except.ok resp =>
    let cats := parseCategories resp
    Except.ok { recommendations := recLoop s cats, recommended_categories := cats }

/-- `GET /products/recommendations/{user_id}` under the blanket except. -/
def get_recommendations (s : Store) (user_id : String) (ai : Except String String) :
    Except PyExc RecResult :=
  catchAll500 (getRecommendationsInner s ai)

/-- One entry of the sample list `SAMPLE_PRODUCTS` (price in cents). -/
structure SampleProduct where
  name : String
  priceCents : Int
  category : String
  image_url : String
  tags : List String
deriving DecidableEq

/-- The module-level `SAMPLE_PRODUCTS` list of `server.py`. -/
def SAMPLE_PRODUCTS : List SampleProduct :=
  [ { name := "Wireless Noise-Cancelling Headphones", priceCents := 29999,
      category := "electronics",
      image_url := "https://images.unsplash.com/photo-1498049794561-7780e7231661?crop=entropy&cs=srgb&fm=jpg&ixid=M3w3NDQ2NDF8MHwxfHNlYXJjaHwxfHxlbGVjdHJvbmljc3xlbnwwfHx8fDE3NTc5MDE4ODZ8MA&ixlib=rb-4.1.0&q=85",
      tags := ["wireless", "noise-cancelling", "audio", "premium"] },
    { name := "Smart Laptop Pro", priceCents := 129999,
      category := "electronics",
      image_url := "https://images.unsplash.com/photo-1550009158-9ebf69173e03?crop=entropy&cs=srgb&fm=jpg&ixid=M3w3NDQ2NDF8MHwxfHNlYXJjaHw0fHxlbGVjdHJvbmljc3xlbnwwfHx8fDE3NTc5MDE4ODZ8MA&ixlib=rb-4.1.0&q=85",
      tags := ["laptop", "professional", "high-performance", "portable"] },
    { name := "Premium Fashion Tracksuit", priceCents := 14999,
      category := "fashion",
      image_url := "https://images.unsplash.com/photo-1515886657613-9f3515b0c78f?crop=entropy&cs=srgb&fm=jpg&ixid=M3w3NTY2NzF8MHwxfHNlYXJjaHwxfHxmYXNoaW9ufGVufDB8fHx8MTc1Nzg2NTgxNnww&ixlib=rb-4.1.0&q=85",
      tags := ["tracksuit", "comfortable", "stylish", "casual"] },
    { name := "Designer Shopping Bag Set", priceCents := 8999,
      category := "fashion",
      image_url := "https://images.unsplash.com/photo-1483985988355-763728e1935b?crop=entropy&cs=srgb&fm=jpg&ixid=M3w3NTY2NzF8MHwxfHNlYXJjaHwyfHxmYXNoaW9ufGVufDB8fHx8MTc1Nzg2NTgxNnww&ixlib=rb-4.1.0&q=85",
      tags := ["bags", "designer", "shopping", "accessories"] },
    { name := "Modern Home Shelf System", priceCents := 19999,
      category := "home",
      image_url := "https://images.unsplash.com/photo-1524634126442-357e0eac3c14?crop=entropy&cs=srgb&fm=jpg&ixid=M3w3NDQ2NDF8MHwxfHNlYXJjaHwxfHxob21lJTIwcHJvZHVjdHN8ZW58MHx8fHwxNzU3OTAxODk1fDA&ixlib=rb-4.1.0&q=85",
      tags := ["shelving", "modern", "storage", "minimalist"] },
    { name := "Ceramic Home Decor Set", priceCents := 7999,
      category := "home",
      image_url := "https://images.unsplash.com/photo-1514237487632-b60bc844a47d?crop=entropy&cs=srgb&fm=jpg&ixid=M3w3NDQ2NDF8MHwxfHNlYXJjaHwyfHxob21lJTIwcHJvZHVjdHN8ZW58MHx8fHwxNzU3OTAxODk1fDA&ixlib=rb-4.1.0&q=85",
      tags := ["ceramic", "decor", "minimalist", "artistic"] },
    { name := "Smart Watch Pro", priceCents := 39999,
      category := "electronics",
      image_url := "https://images.pexels.com/photos/356056/pexels-photo-356056.jpeg",
      tags := ["smartwatch", "fitness", "technology", "premium"] },
    { name := "Contemporary Furniture Piece", priceCents := 59999,
      category := "home",
      image_url := "https://images.unsplash.com/photo-1467043153537-a4fba2cd39ef?crop=entropy&cs=srgb&fm=jpg&ixid=M3w3NDQ2NDF8MHwxfHNlYXJjaHwzfHxob21lJTIwcHJvZHVjdHN8ZW58MHx8fHwxNzU3OTAxODk1fDA&ixlib=rb-4.1.0&q=85",
      tags := ["furniture", "contemporary", "design", "quality"] } ]

/-- `Product(**product_data, description=description)` inside the seed loop:
the AI-generated description plus a fresh uuid and timestamp. -/
def mkSeedProduct (pd : SampleProduct) (desc : String) (fresh clock : Nat) : Product :=
  { id := fresh, name := pd.name, description := desc, priceCents := pd.priceCents,
    category := pd.category, image_url := pd.image_url, tags := pd.tags,
    in_stock := true, created_at := clock }

/-- The seed loop of `POST /products/seed` before the blanket except: for
each sample, call the AI for a description (its outcome given by the oracle
`ai` on the name and category); on AI failure the exception aborts the loop,
keeping the inserts already made; otherwise insert unless a product with the
same name exists (`uuid4` is consumed either way). -/
def seedLoop (ai : String → String → Except String String) :
    Store → List SampleProduct → Except PyExc String × Store
  | s, [] => (Except.ok "Products seeded successfully", s)
  | s, pd :: rest =>
    match ai pd.name pd.category with
    | Except.error e => (Except.error (PyExc.generic e), s)
    | Except.ok desc =>
      let product := mkSeedProduct pd desc s.nextId s.now
      let s1 : Store := { s with nextId := s.nextId + 1 }
      match s1.products.find? (fun p => p.name == product.name) with
      | some _ => seedLoop ai s1 rest
      | none => seedLoop ai { s1 with products := s1.products ++ [product] } rest

/-- `POST /products/seed` under the blanket except. -/
def seed_products (s : Store) (ai : String → String → Except String String) :
    Except PyExc String × Store :=
  let r := seedLoop ai s SAMPLE_PRODUCTS
  (catchAll500 r.1, r.2)

/-- The names of the products in the catalog. -/
def productNames (ps : List Product) : List String := ps.map (fun p => p.name)

/-- The enrichment loop of `GET /cart/{user_id}`: resolve each entry's
product; an entry whose product is gone is skipped without error. -/
def enrichCart (s : Store) (items : List CartItem) : List (CartItem × Product) :=
  items.filterMap (fun it =>
    (findProduct s.products it.product_id).map (fun p => (it, p)))

/-- `GET /cart/{user_id}`: reads the user's cart documents (`to_list(100)`),
enriches them, writes nothing.  The pure path raises no exception, so the
blanket except is inert. -/
def get_cart (s : Store) (uid : String) :
    Except PyExc (List (CartItem × Product)) × Store :=
  let cartItems := (s.cart.filter (fun c => c.user_id == uid)).take 100
  (Except.ok (enrichCart s cartItems), s)

/-- The request body of `POST /chat`: a free-form dict, each key optional. -/
structure ChatBody where
  message : Option String
  user_id : Option String
deriving DecidableEq

/-- Body of `POST /chat` before the blanket except: missing keys default via
`message.get("message", "")` and `message.get("user_id", "anonymous")`; the
cart context feeds only the AI prompt (absorbed in the outcome `ai`); on AI
success one `ChatMessage` holding the original user message and the raw
response is appended to the chat history; on AI failure nothing is written. -/
def chatInner (s : Store) (body : ChatBody) (ai : Except String String) :
    Except PyExc String × Store :=
  let user_message := body.message.getD ""
  let uid := body.user_id.getD "anonymous"
  match ai with
  | Except.error e => (Except.error (PyExc.generic e), s)
  | Except.ok resp =>
    let record : ChatMessage :=
      { id := s.nextId, user_id := uid, message := user_message,
        response := resp, timestamp := s.now }
    (Except.ok resp,
     { s with chat_history := s.chat_history ++ [record], nextId := s.nextId + 1 })

/-- `POST /chat` under the blanket except. -/
def chat_with_ai (s : Store) (body : ChatBody) (ai : Except String String) :
    Except PyExc String × Store :=
  let r := chatInner s body ai
  (catchAll500 r.1, r.2)

/-- A concrete catalog product used by witnesses. -/
def sampleWidget : Product :=
  { id := 1, name := "Widget", description := "a widget", priceCents := 100,
    category := "home", image_url := "http://img", tags := ["widget"],
    in_stock := true, created_at := 0 }

/-- A store holding one product and an empty cart. -/
def store1 : Store :=
  { products := [sampleWidget], cart := [], chat_history := [], nextId := 10, now := 5 }

/-- A concrete cart entry for `sampleWidget` owned by user `u`. -/
def cartEntry1 : CartItem :=
  { id := 3, product_id := 1, user_id := "u", quantity := 2, added_at := 1 }

/-- A store holding one product and one cart entry. -/
def store2 : Store :=
  { products := [sampleWidget], cart := [cartEntry1], chat_history := [],
    nextId := 10, now := 5 }

/-- The empty store. -/
def emptyStore : Store :=
  { products := [], cart := [], chat_history := [], nextId := 0, now := 0 }

/-- A description oracle that always succeeds. -/
def okOracle : String → String → Except String String :=
  fun _ _ => Except.ok "desc"

/-- `find?` returns the head of the filtered list. -/
theorem find_eq_filter_head {α : Type} (p : α → Bool) (l : List α) :
    l.find? p = (l.filter p).head? := by
  induction l with
  | nil => rfl
  | cons a t ih =>
    cases h : p a with
    | true =>
      rw [List.find?_cons_of_pos _ h, List.filter_cons, if_pos h]
      rfl
    | false =>
      rw [List.find?_cons_of_neg _ (by simp [h]), List.filter_cons,
        if_neg (by simp [h])]
      exact ih

/-- `delete_one` on an id no document has deletes nothing and reports
`deleted_count = 0`. -/
theorem deleteOneCart_absent (iid : Nat) (cs : List CartItem)
    (h : ∀ c ∈ cs, c.id ≠ iid) : deleteOneCart cs iid = (cs, 0) := by
  induction cs with
  | nil => rfl
  | cons c rest ih =>
    have hc : (c.id == iid) = false := by
      simp only [beq_eq_false_iff_ne, ne_eq]
      exact h c (List.mem_cons_self c rest)
    simp [deleteOneCart, hc, ih (fun x hx => h x (List.mem_cons_of_mem c hx))]

/-- C2 (code_bug record): adding to the cart with a `productId` absent from
the catalog does return with the cart unchanged, but the caller sees status
500, not the 404 the spec promises: the inner `HTTPException(404, "Product
not found")` is an `Exception`, so the blanket `except Exception` of
`add_to_cart` catches it and re-raises it as
`HTTPException(500, str(e))`. -/
theorem add_to_cart_unknown_product_returns_500 :
    findProduct store1.products 999 = none ∧
    add_to_cart store1 999 "u" 1 =
      (Except.error (PyExc.http 500 "404: Product not found"), store1) := by
  decide

/-- C6: on AI success exactly one `ChatMessage` is appended to the chat
history, holding the original (defaulted) user message and the raw AI
response, and the response is returned; on AI failure the chat history and
the whole store are unchanged and the failure surfaces as a 500. -/
theorem chat_persists_exactly_on_ai_success (s : Store) (body : ChatBody)
    (resp msg : String) :
    chat_with_ai s body (Except.ok resp) =
      (Except.ok resp,
       { s with
          chat_history := s.chat_history ++
            [⟨s.nextId, body.user_id.getD "anonymous", body.message.getD "", resp, s.now⟩],
          nextId := s.nextId + 1 }) ∧
    chat_with_ai s body (Except.error msg) =
      (Except.error (PyExc.http 500 msg), s) :=
  ⟨rfl, rfl⟩

/-- C10: a chat body with the `message` and `user_id` keys missing behaves
exactly like one carrying the empty message and the user id `anonymous`,
and the turn proceeds: on AI success the response is returned and a record
for user `anonymous` with the empty message is persisted. -/
theorem chat_missing_keys_default (s : Store) (ai : Except String String)
    (resp : String) :
    chat_with_ai s { message := none, user_id := none } ai =
      chat_with_ai s { message := some "", user_id := some "anonymous" } ai ∧
    chat_with_ai s { message := none, user_id := none } (Except.ok resp) =
      (Except.ok resp,
       { s with
          chat_history := s.chat_history ++ [⟨s.nextId, "anonymous", "", resp, s.now⟩],
          nextId := s.nextId + 1 }) :=
  ⟨rfl, rfl⟩

/-- C7: fetching a product by an id absent from the catalog yields the 404
Not-Found signal (no try/except wraps `get_product`), and deleting a cart
entry by an id absent from the cart store (for instance one already deleted)
yields the 404 Not-Found signal with the store unchanged. -/
theorem not_found_signals_no_crash (s : Store) (pid iid : Nat)
    (hp : findProduct s.products pid = none)
    (hc : ∀ c ∈ s.cart, c.id ≠ iid) :
    get_product s pid = Except.error (PyExc.http 404 "Product not found") ∧
    remove_from_cart s iid =
      (Except.error (PyExc.http 404 "Cart item not found"), s) := by
  constructor
  · simp [get_product, hp]
  · simp [remove_from_cart, deleteOneCart_absent iid s.cart hc]

/-- Witness for C7 at a concrete store: product id 999 and cart-entry id 999
are absent from `store2`. -/
theorem not_found_signals_no_crash_witness :
    get_product store2 999 = Except.error (PyExc.http 404 "Product not found") ∧
    remove_from_cart store2 999 =
      (Except.error (PyExc.http 404 "Cart item not found"), store2) :=
  not_found_signals_no_crash store2 999 999 (by decide) (by decide)

/-- C3 counterexample: with the catalog holding the Widget (whose name the
raw query matches as a plain substring), a search whose AI expansion call
fails returns a 500 error instead of any search result: the exception from
`get_smart_search_results` propagates to the blanket except of
`get_products`, and no fallback search on the raw query happens. -/
theorem search_ai_failure_surfaces_error :
    get_products store1 none (some "Widget") 20 (Except.error "AI unavailable") =
      Except.error (PyExc.http 500 "AI unavailable") ∧
    ciSubstr "Widget" sampleWidget.name = true ∧
    get_products store1 none (some "Widget") 20 (Except.ok "") =
      Except.ok [sampleWidget] := by
  decide

/-- C3 amended: whenever the AI expansion call succeeds — even with an empty
or unusable response — the term set used to match products is
`searchTerms q resp = q :: keywords`, which contains the raw query `q`; but
when the AI call fails, `get_products` performs no search at all and
returns a 500 error carrying the provider message. -/
theorem search_raw_query_always_in_terms (s : Store) (category : Option String)
    (q : String) (limit : Nat) (resp msg : String) (hq : q.isEmpty = false) :
    q ∈ searchTerms q resp ∧
    get_products s category (some q) limit (Except.ok resp) =
      Except.ok ((s.products.filter
        (fun p => categoryOk category p &&
          termMatches (searchTerms q resp) p)).take limit) ∧
    get_products s category (some q) limit (Except.error msg) =
      Except.error (PyExc.http 500 msg) := by
  refine ⟨List.mem_cons_self _ _, ?_, ?_⟩ <;>
    simp [get_products, getProductsInner, hq, catchAll500, strExc]

/-- Witness for C3 amended at a concrete input: the query `Widget` is
non-empty. -/
theorem search_raw_query_always_in_terms_witness :
    "Widget" ∈ searchTerms "Widget" "gadget, gizmo" ∧
    get_products store1 none (some "Widget") 20 (Except.ok "gadget, gizmo") =
      Except.ok ((store1.products.filter
        (fun p => categoryOk none p &&
          termMatches (searchTerms "Widget" "gadget, gizmo") p)).take 20) ∧
    get_products store1 none (some "Widget") 20 (Except.error "boom") =
      Except.error (PyExc.http 500 "boom") :=
  search_raw_query_always_in_terms store1 none "Widget" 20 "gadget, gizmo"
    "boom" (by decide)

/-- C5 counterexample: the AI response is a single word, so the parsed
category list has length 1 — the claimed lower bound of 3 does not hold (the
prompt asks for 3 to 5 categories but nothing enforces it). -/
theorem recommendation_categories_not_three_to_five :
    get_recommendations store1 "u" (Except.ok "electronics") =
      Except.ok { recommendations := [],
                  recommended_categories := ["electronics"] } ∧
    ¬ 3 ≤ (["electronics"] : List String).length := by
  decide

/-- `splitCommaChars` always yields at least one group. -/
theorem splitCommaChars_ne_nil (l : List Char) : splitCommaChars l ≠ [] := by
  cases l with
  | nil => simp [splitCommaChars]
  | cons c rest =>
    rw [splitCommaChars]
    by_cases h : (c == ',') = true
    · simp [h]
    · simp only [h]
      cases splitCommaChars rest <;> simp

/-- The flattened recommendation list is the concatenation of the
per-category blocks, so its length is at most twice the category count. -/
theorem recLoop_length_le (s : Store) (cats : List String) :
    (recLoop s cats).length ≤ 2 * cats.length := by
  induction cats with
  | nil => simp [recLoop]
  | cons c rest ih =>
    have hc : (categoryProducts s c).length ≤ 2 := by
      simp [categoryProducts]
    simp only [recLoop, List.length_append, List.length_cons]
    omega

/-- C5 amended: for every successful AI response, the recommendation result
consists of the parsed category list (always of length at least 1 — Python
`split(',')` never returns an empty list, and no 3-to-5 bound is enforced)
and the flattened product list in which each category, in order and with
duplicates kept, contributes the up-to-2 products of `categoryProducts`
(case-insensitive category match). -/
theorem recommendation_bounds_amended (s : Store) (uid : String) (resp : String) :
    get_recommendations s uid (Except.ok resp) =
      Except.ok { recommendations := recLoop s (parseCategories resp),
                  recommended_categories := parseCategories resp } ∧
    1 ≤ (parseCategories resp).length ∧
    (∀ cat : String, (categoryProducts s cat).length ≤ 2) ∧
    (recLoop s (parseCategories resp)).length ≤
      2 * (parseCategories resp).length := by
  refine ⟨rfl, ?_, ?_, recLoop_length_le s _⟩
  · have h := splitCommaChars_ne_nil resp.toList
    simp only [parseCategories, split_commas, List.length_map]
    exact Nat.one_le_iff_ne_zero.mpr (by simpa [List.length_eq_zero] using h)
  · intro cat
    simp [categoryProducts]

/-- The seed loop inserts a product only when no product with the same name
exists, so it preserves distinctness of catalog names — whatever each AI
description call returns, and even when one fails mid-loop. -/
theorem seedLoop_nodup_names (ai : String → String → Except String String)
    (samples : List SampleProduct) :
    ∀ s : Store, (productNames s.products).Nodup →
      (productNames (seedLoop ai s samples).2.products).Nodup := by
  induction samples with
  | nil => intro s h; exact h
  | cons pd rest ih =>
    intro s h
    rw [seedLoop]
    cases hai : ai pd.name pd.category with
    | error e => exact h
    | ok desc =>
      simp only
      cases hf : ({ s with nextId := s.nextId + 1 } : Store).products.find?
          (fun p => p.name == (mkSeedProduct pd desc s.nextId s.now).name) with
      | some q => exact ih _ h
      | none =>
        apply ih
        have habs : ∀ p ∈ s.products, p.name ≠ pd.name := by
          intro p hp
          have := List.find?_eq_none.mp hf p hp
          simpa [mkSeedProduct] using this
        have hnotmem : pd.name ∉ productNames s.products := by
          simp only [productNames, List.mem_map]
          rintro ⟨p, hp, hname⟩
          exact habs p hp hname
        simp only [productNames, List.map_append, List.map_cons, List.map_nil]
        rw [List.nodup_append]
        refine ⟨h, List.nodup_singleton _, ?_⟩
        intro x hx hx1
        simp only [mkSeedProduct, List.mem_singleton] at hx1
        exact hnotmem (hx1 ▸ hx)

/-- C4: seeding any number of times (here: twice, with arbitrary and
possibly different AI-description outcomes each run) never produces two
products with the same name, because a sample is inserted only when no
product with that name already exists. -/
theorem seed_idempotent_no_duplicate_names (s : Store)
    (ai1 ai2 : String → String → Except String String)
    (h : (productNames s.products).Nodup) :
    (productNames (seed_products (seed_products s ai1).2 ai2).2.products).Nodup := by
  have h1 : (productNames (seed_products s ai1).2.products).Nodup := by
    simpa [seed_products] using seedLoop_nodup_names ai1 SAMPLE_PRODUCTS s h
  simpa [seed_products] using
    seedLoop_nodup_names ai2 SAMPLE_PRODUCTS (seed_products s ai1).2 h1

/-- Witness for C4: seeding the empty store twice with an always-succeeding
description oracle leaves the catalog names duplicate-free. -/
theorem seed_idempotent_no_duplicate_names_witness :
    (productNames
      (seed_products (seed_products emptyStore okOracle).2 okOracle).2.products).Nodup :=
  seed_idempotent_no_duplicate_names emptyStore okOracle okOracle (by decide)

/-- C9: listing a user's cart never errors and returns a list in which every
element is one of that user's cart entries paired with its still-existing
product (`find_one` on the product id succeeds); an entry whose product id
no longer resolves is silently omitted rather than reported, and the read
leaves the store unchanged. -/
theorem get_cart_returns_only_resolvable (s : Store) (uid : String) :
    (get_cart s uid).2 = s ∧
    ∃ L, (get_cart s uid).1 = Except.ok L ∧
      (∀ ip ∈ L, ip.1 ∈ s.cart ∧ ip.1.user_id = uid ∧
        findProduct s.products ip.1.product_id = some ip.2) ∧
      (∀ c ∈ s.cart, findProduct s.products c.product_id = none →
        ∀ p : Product, (c, p) ∉ L) := by
  have hall : ∀ ip ∈ enrichCart s
      ((s.cart.filter (fun c => c.user_id == uid)).take 100),
      ip.1 ∈ s.cart ∧ ip.1.user_id = uid ∧
        findProduct s.products ip.1.product_id = some ip.2 := by
    intro ip hip
    simp only [enrichCart, List.mem_filterMap] at hip
    obtain ⟨it, hit, hmap⟩ := hip
    cases hfp : findProduct s.products it.product_id with
    | none => rw [hfp] at hmap; cases hmap
    | some pr =>
      rw [hfp] at hmap
      injection hmap with hmap
      subst hmap
      have hmem : it ∈ s.cart.filter (fun c => c.user_id == uid) :=
        List.take_subset 100 _ hit
      have h1 := List.mem_filter.mp hmem
      exact ⟨h1.1, by simpa using h1.2, hfp⟩
  refine ⟨rfl, _, rfl, hall, ?_⟩
  intro c hc hnone p hp
  have h2 := (hall (c, p) hp).2.2
  rw [hnone] at h2
  cases h2

/-- With pairwise-distinct ids, `update_one` (first match) coincides with
updating every id match: there is at most one. -/
theorem updateOneQuantity_eq_map (iid : Nat) (v : Int) (cs : List CartItem)
    (hn : (cartIds cs).Nodup) :
    updateOneQuantity cs iid v = cs.map (setQuantity iid v) := by
  induction cs with
  | nil => rfl
  | cons c rest ih =>
    have hn0 : c.id ∉ cartIds rest ∧ (cartIds rest).Nodup := by
      simpa [cartIds] using hn
    cases h : (c.id == iid) with
    | true =>
      have hcid : c.id = iid := by simpa using h
      have hrest : ∀ x ∈ rest, setQuantity iid v x = x := by
        intro x hx
        have hne : x.id ≠ iid := by
          intro hcontra
          exact hn0.1 (by
            rw [hcid, ← hcontra]
            exact List.mem_map_of_mem (fun c => c.id) hx)
        simp [setQuantity, hne]
      have hmap : rest.map (setQuantity iid v) = rest := by
        rw [List.map_congr_left hrest]
        simp
      rw [updateOneQuantity, if_pos h, List.map_cons, hmap]
      simp [setQuantity, h]
    | false =>
      rw [updateOneQuantity, if_neg (by simp [h]), List.map_cons, ih hn0.2]
      simp [setQuantity, h]

/-- Updating quantities changes no id. -/
theorem cartIds_update_map (iid : Nat) (v : Int) (cs : List CartItem) :
    cartIds (cs.map (setQuantity iid v)) = cartIds cs := by
  simp only [cartIds, List.map_map]
  apply List.map_congr_left
  intro c _
  by_cases h : (c.id == iid) = true <;> simp [Function.comp, setQuantity, h]

/-- Updating quantities does not change which entries match a
(user, product) pair, so filtering commutes with the update map. -/
theorem pairEntries_update_map (pid : Nat) (uid : String) (iid : Nat) (v : Int)
    (cs : List CartItem) :
    pairEntries (cs.map (setQuantity iid v)) pid uid =
      (pairEntries cs pid uid).map (setQuantity iid v) := by
  simp only [pairEntries]
  rw [List.filter_map]
  congr 1
  apply List.filter_congr
  intro c _
  by_cases h : (c.id == iid) = true <;> simp [Function.comp, setQuantity, h, pairMatch]

/-- One `POST /cart` on a pair that already has an entry: the existing entry
is found, its quantity incremented, and the store's cart rewritten with only
that entry's quantity changed. -/
theorem add_existing_step (s : Store) (pid : Nat) (uid : String) (q : Int)
    (p : Product) (it : CartItem)
    (hn : (cartIds s.cart).Nodup)
    (hp : findProduct s.products pid = some p)
    (hfind : findCartPair s.cart pid uid = some it) :
    add_to_cart s pid uid q =
      (Except.ok { it with quantity := it.quantity + q },
       { s with cart := s.cart.map (setQuantity it.id (it.quantity + q)) }) := by
  simp only [add_to_cart, addToCartInner, hp, hfind, catchAll500]
  rw [updateOneQuantity_eq_map it.id (it.quantity + q) s.cart hn]

/-- Folding further adds over a state whose pair has exactly one entry keeps
exactly one entry for the pair, accumulating the quantities. -/
theorem addAll_existing (pid : Nat) (uid : String) (qs : List Int) :
    ∀ (s : Store) (p : Product) (it : CartItem),
      (cartIds s.cart).Nodup →
      findProduct s.products pid = some p →
      pairEntries s.cart pid uid = [it] →
      ∃ it2 : CartItem,
        pairEntries (addAll pid uid s qs).cart pid uid = [it2] ∧
        it2.quantity = it.quantity + qs.sum := by
  induction qs with
  | nil =>
    intro s p it hn hp hpe
    exact ⟨it, hpe, by simp [addAll]⟩
  | cons q rest ih =>
    intro s p it hn hp hpe
    have hfind : findCartPair s.cart pid uid = some it := by
      rw [findCartPair, find_eq_filter_head]
      rw [pairEntries] at hpe
      rw [hpe]
      rfl
    have hstep := add_existing_step s pid uid q p it hn hp hfind
    have hcart : (add_to_cart s pid uid q).2.cart =
        s.cart.map (setQuantity it.id (it.quantity + q)) := by
      rw [hstep]
    have hn2 : (cartIds (add_to_cart s pid uid q).2.cart).Nodup := by
      rw [hcart, cartIds_update_map]
      exact hn
    have hp2 : findProduct (add_to_cart s pid uid q).2.products pid = some p := by
      rw [hstep]
      exact hp
    have hpe2 : pairEntries (add_to_cart s pid uid q).2.cart pid uid =
        [{ it with quantity := it.quantity + q }] := by
      rw [hcart, pairEntries_update_map, hpe]
      simp [setQuantity]
    obtain ⟨it2, h1, h2⟩ :=
      ih (add_to_cart s pid uid q).2 p { it with quantity := it.quantity + q } hn2 hp2 hpe2
    refine ⟨it2, by simpa [addAll] using h1, ?_⟩
    rw [h2]
    show it.quantity + q + rest.sum = it.quantity + (q :: rest).sum
    rw [List.sum_cons]
    ring

/-- C1: starting from a cart with no entry for the (user, product) pair, N
successive adds with positive quantities `qs` leave exactly one entry for
the pair, whose quantity is the sum of the `qs`. -/
theorem cart_upsert_accumulates (s : Store) (pid : Nat) (uid : String)
    (p : Product) (qs : List Int)
    (hwf : WFStore s) (hp : findProduct s.products pid = some p)
    (h0 : pairEntries s.cart pid uid = []) (hne : qs ≠ [])
    (hpos : ∀ q ∈ qs, 0 < q) :
    ∃ it : CartItem,
      pairEntries (addAll pid uid s qs).cart pid uid = [it] ∧
      it.quantity = qs.sum := by
  obtain ⟨hnod, hbound⟩ := hwf
  cases qs with
  | nil => exact absurd rfl hne
  | cons q rest =>
    have hfind : findCartPair s.cart pid uid = none := by
      rw [findCartPair, find_eq_filter_head]
      rw [pairEntries] at h0
      rw [h0]
      rfl
    have hstep : add_to_cart s pid uid q =
        (Except.ok (⟨s.nextId, pid, uid, q, s.now⟩ : CartItem),
         { s with cart := s.cart ++ [⟨s.nextId, pid, uid, q, s.now⟩],
                  nextId := s.nextId + 1 }) := by
      simp only [add_to_cart, addToCartInner, hp, hfind, catchAll500]
    have hcart : (add_to_cart s pid uid q).2.cart =
        s.cart ++ [(⟨s.nextId, pid, uid, q, s.now⟩ : CartItem)] := by
      rw [hstep]
    have hn2 : (cartIds (add_to_cart s pid uid q).2.cart).Nodup := by
      rw [hcart]
      simp only [cartIds, List.map_append, List.map_cons, List.map_nil]
      rw [List.nodup_append]
      refine ⟨hnod, List.nodup_singleton _, ?_⟩
      intro x hx hx1
      simp only [List.mem_singleton] at hx1
      subst hx1
      simp only [cartIds, List.mem_map] at hx
      obtain ⟨c, hc, hcid⟩ := hx
      exact absurd (hcid ▸ hbound c hc) (lt_irrefl _)
    have hp2 : findProduct (add_to_cart s pid uid q).2.products pid = some p := by
      rw [hstep]
      exact hp
    have hpe2 : pairEntries (add_to_cart s pid uid q).2.cart pid uid =
        [(⟨s.nextId, pid, uid, q, s.now⟩ : CartItem)] := by
      rw [hcart]
      simp only [pairEntries] at h0 ⊢
      rw [List.filter_append, h0]
      simp [pairMatch]
    obtain ⟨it2, h1, h2⟩ := addAll_existing pid uid rest (add_to_cart s pid uid q).2 p
      ⟨s.nextId, pid, uid, q, s.now⟩ hn2 hp2 hpe2
    refine ⟨it2, by simpa [addAll] using h1, ?_⟩
    rw [h2]
    show q + rest.sum = (q :: rest).sum
    rw [List.sum_cons]

/-- Witness for C1: two adds of quantities 2 and 3 on the widget leave one
entry of quantity 5. -/
theorem cart_upsert_accumulates_witness :
    ∃ it : CartItem,
      pairEntries (addAll 1 "u" store1 [2, 3]).cart 1 "u" = [it] ∧
      it.quantity = ([2, 3] : List Int).sum :=
  cart_upsert_accumulates store1 1 "u" sampleWidget [2, 3]
    ⟨by decide, by decide⟩ (by decide) (by decide) (by decide) (by decide)

/-- C8: an add on a pair that already has an entry changes only that entry's
quantity: the returned entry keeps its id, product id, user id and
timestamp; the catalog, chat history and id supply are untouched; the cart
is the old cart with only the matching entry's quantity replaced
(`setQuantity` leaves every field but `quantity` alone), and every other
entry is still present unchanged. -/
theorem cart_upsert_frame (s : Store) (pid : Nat) (uid : String) (q : Int)
    (p : Product) (it : CartItem)
    (hn : (cartIds s.cart).Nodup)
    (hp : findProduct s.products pid = some p)
    (hfind : findCartPair s.cart pid uid = some it) :
    (add_to_cart s pid uid q).1 =
      Except.ok { it with quantity := it.quantity + q } ∧
    (add_to_cart s pid uid q).2.products = s.products ∧
    (add_to_cart s pid uid q).2.chat_history = s.chat_history ∧
    (add_to_cart s pid uid q).2.nextId = s.nextId ∧
    (add_to_cart s pid uid q).2.cart =
      s.cart.map (setQuantity it.id (it.quantity + q)) ∧
    ∀ c ∈ s.cart, c.id ≠ it.id → c ∈ (add_to_cart s pid uid q).2.cart := by
  have hstep := add_existing_step s pid uid q p it hn hp hfind
  refine ⟨by rw [hstep], by rw [hstep], by rw [hstep], by rw [hstep],
    by rw [hstep], ?_⟩
  intro c hc hne
  rw [hstep]
  refine List.mem_map.mpr ⟨c, hc, ?_⟩
  simp [setQuantity, hne]

/-- Witness for C8: adding 3 more widgets for user `u`, whose cart already
holds `cartEntry1` (quantity 2), updates only that entry. -/
theorem cart_upsert_frame_witness :
    (add_to_cart store2 1 "u" 3).1 =
      Except.ok { cartEntry1 with quantity := cartEntry1.quantity + 3 } ∧
    (add_to_cart store2 1 "u" 3).2.products = store2.products ∧
    (add_to_cart store2 1 "u" 3).2.chat_history = store2.chat_history ∧
    (add_to_cart store2 1 "u" 3).2.nextId = store2.nextId ∧
    (add_to_cart store2 1 "u" 3).2.cart =
      store2.cart.map (setQuantity cartEntry1.id (cartEntry1.quantity + 3)) ∧
    ∀ c ∈ store2.cart, c.id ≠ cartEntry1.id →
      c ∈ (add_to_cart store2 1 "u" 3).2.cart :=
  cart_upsert_frame store2 1 "u" 3 sampleWidget cartEntry1
    (by decide) (by decide) (by decide)
end ECommerce
